import Mathlib

/-
Verification of the lead-capture backend (main.py, schemas.py) against its
specification.  The HTTP handlers, validation rules, SMTP notification logic
and the diagnostic endpoint are embedded as executable Lean functions; the
persistence adapter (database.py is not part of the sources) is modelled from
the spec.  Machine-level effects (actual sockets, SMTP wire protocol) are
abstracted into an oracle describing the behaviour of the mail server; everything
observable by a caller (response status and body, stored documents, delivery
attempts) is explicit in the return values.
-/

namespace LeadApp

/-- Decidable equality for Except values, used to evaluate the embedded
operations on concrete inputs. -/
instance {α β : Type} [DecidableEq α] [DecidableEq β] : DecidableEq (Except α β) := fun a b =>
  match a, b with
  | .ok x, .ok y =>
    if h : x = y then .isTrue (congrArg Except.ok h)
    else .isFalse (fun he => h (Except.ok.inj he))
  | .error x, .error y =>
    if h : x = y then .isTrue (congrArg Except.error h)
    else .isFalse (fun he => h (Except.error.inj he))
  | .ok _, .error _ => .isFalse (fun he => Except.noConfusion he)
  | .error _, .ok _ => .isFalse (fun he => Except.noConfusion he)

/-- Environment configuration as read via os.getenv: a variable that is not
set is `none`; a variable set to the empty string is `some ""` (which Python
treats as falsy in every truthiness test the code performs). -/
structure Env where
  smtpHost : Option String
  smtpPort : Option String
  smtpUser : Option String
  smtpPass : Option String
  emailFrom : Option String
  emailTo : Option String
  adminKey : Option String
  databaseUrl : Option String
  databaseName : Option String
deriving DecidableEq

/-- Python truthiness of an optional environment string: `None` and the empty
string are falsy, every other string is truthy. -/
def truthy : Option String → Bool
  | none => false
  | some s => s != ""

/-- Digit run parsing for `pyInt`: the value of a non-empty all-digit
character list. -/
def parseDigits (l : List Char) : Option Nat :=
  if l.isEmpty then none
  else if l.all Char.isDigit then
    some (l.foldl (fun a c => a * 10 + (c.toNat - 48)) 0)
  else none

/-- Python int() applied to an environment string, as used for SMTP_PORT:
returns the parsed integer, or fails (raising ValueError in Python) when the
string is not an integer numeral.  Surrounding whitespace and an optional
sign are tolerated, matching Python on the usual inputs. -/
def pyInt (s : String) : Option Int :=
  let l := ((s.data.dropWhile Char.isWhitespace).reverse.dropWhile Char.isWhitespace).reverse
  match l with
  | [] => none
  | c :: rest =>
    if c = '-' then (parseDigits rest).map (fun n => -(n : Int))
    else if c = '+' then (parseDigits rest).map (fun n => (n : Int))
    else (parseDigits l).map (fun n => (n : Int))

/-- A validated Lead, embedding the pydantic model in schemas.py.  Optional
fields keep their optionality; `platforms` and `preferred_times` default to
the empty list at validation time but remain optional in the record, mirroring
Optional[List[str]] with default_factory=list. -/
structure Lead where
  name : String
  email : String
  phone : Option String
  experience_level : Option String
  goals : Option String
  platforms : Option (List String)
  timezone : Option String
  preferred_times : Option (List String)
  consent : Bool
deriving DecidableEq

/-- A raw request body for POST /api/leads before validation: every field may
be absent. -/
structure LeadInput where
  name : Option String
  email : Option String
  phone : Option String
  experience_level : Option String
  goals : Option String
  platforms : Option (List String)
  timezone : Option String
  preferred_times : Option (List String)
  consent : Option Bool
deriving DecidableEq

/-- Splitting a character list on a separator character; used to model the
syntactic decomposition an email validator performs. -/
def splitOnChar (sep : Char) : List Char → List (List Char)
  | [] => [[]]
  | c :: cs =>
    let r := splitOnChar sep cs
    if c = sep then [] :: r
    else
      match r with
      | [] => [[c]]
      | h :: t => (c :: h) :: t

/-- Syntactic email validity, embedding the check performed by the pydantic
EmailStr type (email-validator): a single @ separating a non-empty local part from
a domain made of at least two non-empty dot-separated labels. -/
def validEmail (s : String) : Bool :=
  match splitOnChar '@' s.data with
  | [l, d] =>
    let parts := splitOnChar '.' d
    (!l.isEmpty) && decide (2 ≤ parts.length) && parts.all (fun p => !p.isEmpty)
  | _ => false

/-- Validation errors contributed by the `name` field (required, min_length 2,
max_length 100). -/
def nameErrors : Option String → List String
  | none => ["name: field required"]
  | some n =>
    (if n.length < 2 then ["name: at least 2 characters"] else []) ++
    (if 100 < n.length then ["name: at most 100 characters"] else [])

/-- Validation errors contributed by the `email` field (required, EmailStr). -/
def emailErrors : Option String → List String
  | none => ["email: field required"]
  | some e => if validEmail e then [] else ["email: value is not a valid email address"]

/-- Validation errors contributed by an optional bounded-length string field. -/
def optLenErrors (label : String) (maxLen : Nat) : Option String → List String
  | none => []
  | some v => if maxLen < v.length then [label ++ ": too long"] else []

/-- All pydantic validation errors for a raw Lead body, in field order. -/
def leadErrors (i : LeadInput) : List String :=
  nameErrors i.name ++ emailErrors i.email ++ optLenErrors "phone" 32 i.phone ++
    optLenErrors "goals" 1000 i.goals ++ optLenErrors "timezone" 64 i.timezone

/-- Pydantic validation of a raw body against the Lead model: either the
validated Lead (defaults applied: list fields default to empty, consent
defaults to true) or the list of field errors. -/
def parseLead (i : LeadInput) : Except (List String) Lead :=
  match i.name, i.email with
  | some n, some e =>
    let errs := leadErrors i
    if errs.isEmpty then
      .ok ⟨n, e, i.phone, i.experience_level, i.goals, some (i.platforms.getD []),
           i.timezone, some (i.preferred_times.getD []), i.consent.getD true⟩
    else .error errs
  | _, _ => .error (leadErrors i)

/-- Renders an optional string as Python `value or "-"`: a dash when the value
is absent or empty. -/
def orDash : Option String → String
  | none => "-"
  | some s => if s = "" then "-" else s

/-- Renders an optional string list as Python `", ".join(xs or []) or "-"`. -/
def joinOrDash (o : Option (List String)) : String :=
  let j := String.intercalate ", " (o.getD [])
  if j = "" then "-" else j

/-- Subject of the admin notification email. -/
def subjectAdmin (lead : Lead) : String :=
  "New Lead: " ++ lead.name

/-- Body of the admin notification email, interpolated from the lead. -/
def bodyAdmin (lead : Lead) (leadId : String) : String :=
  "New lead submitted for 1:1 Media Buying Program\n\n" ++
  "Name: " ++ lead.name ++ "\n" ++
  "Email: " ++ lead.email ++ "\n" ++
  "Phone: " ++ orDash lead.phone ++ "\n" ++
  "Experience: " ++ orDash lead.experience_level ++ "\n" ++
  "Goals: " ++ orDash lead.goals ++ "\n" ++
  "Platforms: " ++ joinOrDash lead.platforms ++ "\n" ++
  "Timezone: " ++ orDash lead.timezone ++ "\n" ++
  "Preferred Times: " ++ joinOrDash lead.preferred_times ++ "\n" ++
  "Consent: " ++ (if lead.consent then "Yes" else "No") ++ "\n" ++
  "ID: " ++ leadId ++ "\n"

/-- Subject of the applicant confirmation email. -/
def subjectUser : String :=
  "Thanks for applying — Hesham Hamdy 1:1 Program"

/-- Body of the applicant confirmation email, interpolated from the lead. -/
def bodyUser (lead : Lead) : String :=
  "Hi " ++ lead.name ++ ",\n\n" ++
  "Thanks for applying to the one-to-one Media Buying program. " ++
  "I\x27ve received your details and will get back to you shortly to schedule the first session.\n\n" ++
  "Your selections:\n- Experience: " ++ orDash lead.experience_level ++
  "\n- Platforms: " ++ joinOrDash lead.platforms ++
  "\n- Preferred Times: " ++ joinOrDash lead.preferred_times ++
  "\n- Timezone: " ++ orDash lead.timezone ++ "\n\n" ++
  "If you need to update anything, just reply to this email.\n\n— Hesham"

/-- `_smtp_configured`: all four of SMTP_HOST, SMTP_PORT, EMAIL_FROM, EMAIL_TO
are truthy. -/
def smtpConfigured (env : Env) : Bool :=
  truthy env.smtpHost && truthy env.smtpPort && truthy env.emailFrom && truthy env.emailTo

/-- One outbound delivery attempt: an SMTP connection opened towards a host
and port carrying one message. -/
structure MailAttempt where
  host : String
  port : Int
  sender : Option String
  recipient : String
  subject : String
  body : String
deriving DecidableEq

/-- `_send_email`: best-effort email sending.  If SMTP_HOST is falsy the call
returns immediately with no attempt.  Otherwise the port is parsed with int()
BEFORE the try block, so a non-numeric SMTP_PORT raises to the caller
(`.error`).  The connection, STARTTLS, optional login and send are inside the
try block; their outcome is given by the oracle `orc` and any failure is
swallowed, so the attempt is recorded and `.ok` is returned either way.
Returns the list of delivery attempts made. -/
def sendEmail (env : Env) (orc : MailAttempt → Bool) (subject body toEmail : String) :
    Except String (List MailAttempt) :=
  if !truthy env.smtpHost then .ok []
  else
    match pyInt ((env.smtpPort).getD "587") with
    | none => .error "invalid literal for int"
    | some port =>
      let attempt : MailAttempt :=
        ⟨(env.smtpHost).getD "", port, env.emailFrom, toEmail, subject, body⟩
      let delivery : Except String Unit :=
        if orc attempt then .ok () else .error "SMTPException"
      match delivery with
      | .ok _ => .ok [attempt]
      | .error _ => .ok [attempt]

/-- Modelled from the spec: the kind of value stored under created_at.  The
persistence adapter (database.py, absent from the sources) assigns a creation
timestamp at insert time; the listing code falls back to the plain integer 0
for records that lack one.  Python comparison between a datetime and an
integer raises TypeError, which `compareLt` models by failing. -/
inductive CVal where
  | dt (t : Nat)
  | intv (n : Int)
deriving DecidableEq

/-- Python `<` on created_at sort keys: defined within one kind, raising
(TypeError) across kinds. -/
def compareLt : CVal → CVal → Except String Bool
  | .dt a, .dt b => .ok (decide (a < b))
  | .intv a, .intv b => .ok (decide (a < b))
  | _, _ => .error "TypeError: cannot compare datetime and int"

/-- Modelled from the spec: one stored document of the "lead" collection.  The
persistence layer adds a unique identifier (`oid`, the Mongo _id) and a creation
timestamp; the listing code later adds the public string field `id`
(`pubId`). -/
structure Doc where
  oid : Option String
  pubId : Option String
  created_at : Option CVal
  lead : Lead
deriving DecidableEq

/-- Modelled from the spec: the document store, with an availability flag
standing for the underlying server being reachable and initialized. -/
structure Store where
  docs : List Doc
  available : Bool
deriving DecidableEq

/-- Modelled from the spec: the identifier generated for the next insert. -/
def genId (store : Store) : String :=
  "lead-" ++ toString store.docs.length

/-- Modelled from the spec: the store after a successful insert — the new
document carries the fields of the lead, the generated identifier and the
server-assigned creation timestamp, appended in insertion order. -/
def newStore (store : Store) (lead : Lead) (now : Nat) : Store :=
  ⟨store.docs ++ [⟨some (genId store), none, some (.dt now), lead⟩], store.available⟩

/-- Modelled from the spec: `create_document(collection, record)` — inserts
one document carrying the fields of the record plus a generated identifier and a
server-assigned creation timestamp, returning the identifier; fails with a
StorageError when the store is unreachable. -/
def createDocument (store : Store) (lead : Lead) (now : Nat) :
    Except String (String × Store) :=
  if store.available then .ok (genId store, newStore store lead now)
  else .error "storage unreachable"

/-- Modelled from the spec: `get_documents(collection, filter, limit)` — up to
`limit` documents in the underlying (insertion) order of the store. -/
def getDocuments (store : Store) (limit : Nat) : List Doc :=
  store.docs.take limit

/-- Detail payload of an error response: a plain string (HTTPException) or the
structured list produced by request validation. -/
inductive Detail where
  | str (s : String)
  | list (l : List String)
deriving DecidableEq

/-- Response of POST /api/leads as observed by the caller. -/
structure PostResp where
  status : Nat
  ok : Option Bool
  id : Option String
  detail : Option Detail
deriving DecidableEq

/-- Full outcome of a create-lead request: the HTTP response, the resulting
store, and the delivery attempts made. -/
structure CreateOut where
  resp : PostResp
  store : Store
  attempts : List MailAttempt
deriving DecidableEq

/-- `create_lead`: persist the lead; if `_smtp_configured()`, send the admin
summary to EMAIL_TO and then the applicant confirmation to the email of the lead;
return ok with the new identifier.  Any exception (storage failure, or a
ValueError escaping `_send_email`) is turned into a 500 with a string
detail. -/
def createLead (env : Env) (orc : MailAttempt → Bool) (now : Nat) (store : Store)
    (lead : Lead) : CreateOut :=
  match createDocument store lead now with
  | .error e => ⟨⟨500, none, none, some (.str e)⟩, store, []⟩
  | .ok (leadId, store2) =>
    if smtpConfigured env then
      match sendEmail env orc (subjectAdmin lead) (bodyAdmin lead leadId) ((env.emailTo).getD "") with
      | .error e => ⟨⟨500, none, none, some (.str e)⟩, store2, []⟩
      | .ok a1 =>
        match sendEmail env orc subjectUser (bodyUser lead) lead.email with
        | .error e => ⟨⟨500, none, none, some (.str e)⟩, store2, a1⟩
        | .ok a2 => ⟨⟨200, some true, some leadId, none⟩, store2, a1 ++ a2⟩
    else ⟨⟨200, some true, some leadId, none⟩, store2, []⟩

/-- The full POST /api/leads pipeline: FastAPI validates the body against the
Lead model first — a validation failure is answered with 422 Unprocessable
Entity and the structured list of errors, without running the handler — and
only then runs `create_lead`. -/
def postLeads (env : Env) (orc : MailAttempt → Bool) (now : Nat) (store : Store)
    (i : LeadInput) : CreateOut :=
  match parseLead i with
  | .error errs => ⟨⟨422, none, none, some (.list errs)⟩, store, []⟩
  | .ok lead => createLead env orc now store lead

/-- The id-stripping step of `list_leads`: `d["id"] = str(d.pop("_id"))` when
the internal identifier is present; the document is unchanged otherwise. -/
def stripId (d : Doc) : Doc :=
  match d.oid with
  | some o => ⟨none, some o, d.created_at, d.lead⟩
  | none => d

/-- The sort key `x.get("created_at", 0)`: the stored value, or the plain
integer 0 when absent. -/
def sortKey (d : Doc) : CVal :=
  (d.created_at).getD (.intv 0)

/-- The comparison IFLT(a, b) performed by the CPython sort on precomputed
keys. -/
def iflt (a b : Doc) : Except String Bool :=
  compareLt (sortKey a) (sortKey b)

/-- Outcome of the in-place CPython list.sort: either the sorted array, or a
raised comparison error together with the (partially sorted) state the
aborted sort leaves in the list. -/
inductive SortResult where
  | ok (l : List Doc)
  | fail (e : String) (l : List Doc)
deriving DecidableEq

/-- The array a sort outcome leaves in the list, sorted or not. -/
def resList : SortResult → List Doc
  | .ok l => l
  | .fail _ l => l

/-- The ascending-run scan of count_run: extends the run while the next
element is not below its predecessor. -/
def runAsc (prev : Doc) : List Doc → Except String Nat
  | [] => .ok 0
  | c :: cs =>
    match iflt c prev with
    | .error e => .error e
    | .ok true => .ok 0
    | .ok false =>
      match runAsc c cs with
      | .error e => .error e
      | .ok n => .ok (n + 1)

/-- The strictly-descending-run scan of count_run: extends the run while the
next element is below its predecessor. -/
def runDesc (prev : Doc) : List Doc → Except String Nat
  | [] => .ok 0
  | c :: cs =>
    match iflt c prev with
    | .error e => .error e
    | .ok true =>
      match runDesc c cs with
      | .error e => .error e
      | .ok n => .ok (n + 1)
    | .ok false => .ok 0

/-- count_run of the CPython sort: length of the initial run and whether it
is strictly descending; the first comparison that raises aborts the sort
with the array untouched by this phase. -/
def countRun : List Doc → Except String (Nat × Bool)
  | [] => .ok (0, false)
  | [_] => .ok (1, false)
  | a :: b :: rest =>
    match iflt b a with
    | .error e => .error e
    | .ok true =>
      match runDesc b rest with
      | .error e => .error e
      | .ok n => .ok (n + 2, true)
    | .ok false =>
      match runAsc b rest with
      | .error e => .error e
      | .ok n => .ok (n + 2, false)

/-- The binary search of binarysort: narrows [l, r) with p = l + (r-l)/2,
moving r to p when pivot < keys[p] and l past p otherwise, exactly the
comparison sequence CPython performs.  The structural fuel argument (always
called with more fuel than the interval width, which shrinks every step)
stands in for the loop. -/
def binsearch (pref : List Doc) (pivot : Doc) : Nat → Nat → Nat → Except String Nat
  | 0, l, _ => .ok l
  | fuel + 1, l, r =>
    if l < r then
      let p := l + (r - l) / 2
      match iflt pivot (pref.getD p pivot) with
      | .error e => .error e
      | .ok true => binsearch pref pivot fuel l p
      | .ok false => binsearch pref pivot fuel (p + 1) r
    else .ok l

/-- binarysort of the CPython sort: binary insertion of each remaining
element into the sorted prefix.  A raising comparison aborts with the array
in its current state — the elements inserted so far stay where the aborted
sort moved them, the pivot and the rest are still in place after them. -/
def binarySortLoop : List Doc → List Doc → SortResult
  | pref, [] => .ok pref
  | pref, pivot :: rest =>
    match binsearch pref pivot (pref.length + 1) 0 pref.length with
    | .error e => .fail e (pref ++ pivot :: rest)
    | .ok idx => binarySortLoop (pref.take idx ++ pivot :: pref.drop idx) rest

/-- `docs.sort(key=..., reverse=True)` as CPython executes it on lists below
the merge threshold (64 elements, below which minrun equals the length and
no merge phase runs): keys are precomputed (never raising here), the array
is reversed, count_run measures the initial run (a strictly descending run
is reversed), binarysort extends it over the whole array, and the array —
sorted or, after a raised TypeError, partially sorted — is reversed back and
put into the list.  A failed sort therefore leaves a permutation of the
input that need not be the original order. -/
def pySortDesc (l : List Doc) : SortResult :=
  if l.length < 2 then .ok l
  else
    let rev := l.reverse
    match countRun rev with
    | .error e => .fail e rev.reverse
    | .ok (n, desc) =>
      let arranged := if desc then (rev.take n).reverse ++ rev.drop n else rev
      match binarySortLoop (arranged.take n) (arranged.drop n) with
      | .ok sorted => .ok sorted.reverse
      | .fail e st => .fail e st.reverse

/-- Response of GET /api/leads as observed by the caller. -/
structure ListResp where
  status : Nat
  ok : Option Bool
  results : List Doc
  detail : Option String
deriving DecidableEq

/-- `list_leads`: when ADMIN_KEY is truthy, a header different from it is
answered 401; then the documents are fetched (a storage failure becomes a
500), their internal identifier is moved into the public `id` field, and an
in-place sort by created_at descending is attempted — a sort error is
swallowed, and the response carries whatever (partially sorted) state the
aborted in-place sort left in the list. -/
def listLeads (env : Env) (store : Store) (limit : Nat) (xAdminKey : Option String) :
    ListResp :=
  if truthy env.adminKey ∧ xAdminKey ≠ env.adminKey then
    ⟨401, none, [], some "Unauthorized"⟩
  else if store.available then
    let docs := (getDocuments store limit).map stripId
    let results :=
      match pySortDesc docs with
      | .ok r => r
      | .fail _ st => st
    ⟨200, some true, results, none⟩
  else ⟨500, none, [], some "storage unreachable"⟩

/-- Modelled from the spec: the process-wide store handle `db` as seen by the
diagnostic endpoint — when initialized, it answers list_collection_names with
either the collection names or an error. -/
structure DbHandle where
  listCollectionNames : Except String (List String)

/-- Response of GET /test: the six diagnostic keys. -/
structure TestResponse where
  backend : String
  database : String
  database_url : String
  database_name : String
  connection_status : String
  collections : List String
deriving DecidableEq

/-- `test_database`: builds the diagnostic object.  Every store interaction is
inside try/except, so the function is total: an uninitialized handle reports
"Available but not initialized", a failing list_collection_names reports the
truncated error text, and the configuration keys are overwritten at the end
from the environment alone. -/
def testDatabase (db : Option DbHandle) (env : Env) : TestResponse :=
  let database :=
    match db with
    | some h =>
      match h.listCollectionNames with
      | .ok _ => "✅ Connected & Working"
      | .error e => "⚠️  Connected but Error: " ++ e.take 50
    | none => "⚠️  Available but not initialized"
  let collections :=
    match db with
    | some h =>
      match h.listCollectionNames with
      | .ok cs => cs.take 10
      | .error _ => []
    | none => []
  ⟨"✅ Running", database,
    (if truthy env.databaseUrl then "✅ Set" else "❌ Not Set"),
    (if truthy env.databaseName then "✅ Set" else "❌ Not Set"),
    (match db with | some _ => "Connected" | none => "Not Connected"),
    collections⟩

/-- A valid lead used as concrete input in the evaluations below. -/
def adaLead : Lead :=
  ⟨"Ada", "ada@example.com", none, none, none, some [], none, some [], true⟩

/-- The raw request body whose validation yields `adaLead`. -/
def adaInput : LeadInput :=
  ⟨some "Ada", some "ada@example.com", none, none, none, none, none, none, none⟩

/-- A request body with a one-character name, failing Lead validation. -/
def shortNameInput : LeadInput :=
  ⟨some "A", some "ada@example.com", none, none, none, none, none, none, none⟩

/-- Environment with nothing configured. -/
def envNone : Env := ⟨none, none, none, none, none, none, none, none, none⟩

/-- Environment with complete, well-formed SMTP configuration. -/
def envFull : Env :=
  ⟨some "smtp.example.com", some "587", none, none, some "from@example.com",
    some "to@example.com", none, none, none⟩

/-- Environment with complete SMTP configuration but a non-numeric port. -/
def envBadPort : Env :=
  ⟨some "smtp.example.com", some "not-a-number", none, none, some "from@example.com",
    some "to@example.com", none, none, none⟩

/-- Environment with only an admin secret configured. -/
def envSecret : Env := ⟨none, none, none, none, none, none, some "secret", none, none⟩

/-- An empty, reachable store. -/
def emptyStore : Store := ⟨[], true⟩

/-- An empty store whose server is unreachable. -/
def deadStore : Store := ⟨[], false⟩

/-- A mail server that accepts every delivery. -/
def orcUp : MailAttempt → Bool := fun _ => true

/-- Concrete stored documents created at times 1, 2, 3, and one lacking a
creation timestamp. -/
def docT1 : Doc := ⟨some "a1", none, some (.dt 1), adaLead⟩

def docT2 : Doc := ⟨some "a2", none, some (.dt 2), adaLead⟩

def docT3 : Doc := ⟨some "a3", none, some (.dt 3), adaLead⟩

def docNoTime : Doc := ⟨some "a4", none, none, adaLead⟩

/-! Helper lemmas about the embedded operations. -/

theorem sendEmail_ok (env : Env) (orc : MailAttempt → Bool) (s b r : String) (p : Int)
    (hh : truthy env.smtpHost = true) (hp : pyInt ((env.smtpPort).getD "587") = some p) :
    sendEmail env orc s b r = .ok [⟨(env.smtpHost).getD "", p, env.emailFrom, r, s, b⟩] := by
  rw [sendEmail]
  simp only [hh, hp, Bool.not_true]
  by_cases horc : orc ⟨(env.smtpHost).getD "", p, env.emailFrom, r, s, b⟩ <;> simp [horc]

theorem sendEmail_port_error (env : Env) (orc : MailAttempt → Bool) (s b r : String)
    (hh : truthy env.smtpHost = true) (hp : pyInt ((env.smtpPort).getD "587") = none) :
    sendEmail env orc s b r = .error "invalid literal for int" := by
  simp [sendEmail, hh, hp]

theorem smtpConfigured_host (env : Env) (h : smtpConfigured env = true) :
    truthy env.smtpHost = true := by
  rw [smtpConfigured] at h
  simp only [Bool.and_eq_true] at h
  exact h.1.1.1

theorem createLead_unconfigured (env : Env) (orc : MailAttempt → Bool) (now : Nat)
    (store : Store) (lead : Lead) (hav : store.available = true)
    (hcfg : smtpConfigured env = false) :
    createLead env orc now store lead =
      ⟨⟨200, some true, some (genId store), none⟩, newStore store lead now, []⟩ := by
  simp [createLead, createDocument, hav, hcfg]

theorem createLead_configured (env : Env) (orc : MailAttempt → Bool) (now : Nat)
    (store : Store) (lead : Lead) (p : Int) (hav : store.available = true)
    (hcfg : smtpConfigured env = true) (hp : pyInt ((env.smtpPort).getD "587") = some p) :
    createLead env orc now store lead =
      ⟨⟨200, some true, some (genId store), none⟩, newStore store lead now,
        [⟨(env.smtpHost).getD "", p, env.emailFrom, (env.emailTo).getD "",
            subjectAdmin lead, bodyAdmin lead (genId store)⟩,
         ⟨(env.smtpHost).getD "", p, env.emailFrom, lead.email, subjectUser, bodyUser lead⟩]⟩ := by
  have hh := smtpConfigured_host env hcfg
  simp [createLead, createDocument, hav, hcfg,
    sendEmail_ok env orc (subjectAdmin lead) (bodyAdmin lead (genId store)) ((env.emailTo).getD "") p hh hp,
    sendEmail_ok env orc subjectUser (bodyUser lead) lead.email p hh hp]

theorem createLead_port_error (env : Env) (orc : MailAttempt → Bool) (now : Nat)
    (store : Store) (lead : Lead) (hav : store.available = true)
    (hcfg : smtpConfigured env = true) (hp : pyInt ((env.smtpPort).getD "587") = none) :
    createLead env orc now store lead =
      ⟨⟨500, none, none, some (.str "invalid literal for int")⟩, newStore store lead now, []⟩ := by
  have hh := smtpConfigured_host env hcfg
  simp [createLead, createDocument, hav, hcfg,
    sendEmail_port_error env orc (subjectAdmin lead) (bodyAdmin lead (genId store)) ((env.emailTo).getD "") hh hp]

theorem parseLead_error (i : LeadInput) (h : leadErrors i ≠ []) :
    parseLead i = .error (leadErrors i) := by
  have hemp : (leadErrors i).isEmpty = false := List.isEmpty_eq_false.mpr h
  rw [parseLead]
  cases hn : i.name with
  | none => cases i.email <;> rfl
  | some n =>
    cases he : i.email with
    | none => rfl
    | some e => simp only [← hn, ← he, hemp, Bool.false_eq_true, if_false]

theorem nameErrors_ne_nil (n : String) (h : n.length < 2 ∨ 100 < n.length) :
    nameErrors (some n) ≠ [] := by
  rw [nameErrors]
  rcases h with h | h
  · simp [h]
  · have h2 : ¬ n.length < 2 := by omega
    simp [h, h2]

theorem leadErrors_ne_nil (i : LeadInput)
    (h : i.name = none ∨ i.email = none ∨
      (∃ n, i.name = some n ∧ (n.length < 2 ∨ 100 < n.length)) ∨
      (∃ e, i.email = some e ∧ validEmail e = false)) :
    leadErrors i ≠ [] := by
  intro hnil
  rw [leadErrors] at hnil
  simp only [List.append_eq_nil] at hnil
  obtain ⟨⟨⟨⟨h1, h2⟩, _⟩, _⟩, _⟩ := hnil
  rcases h with hn | he | ⟨n, hn, hlen⟩ | ⟨e, he, hve⟩
  · simp [nameErrors, hn] at h1
  · simp [emailErrors, he] at h2
  · rw [hn] at h1
    exact nameErrors_ne_nil n hlen h1
  · simp [emailErrors, he, hve] at h2

theorem stripId_created_at (d : Doc) : (stripId d).created_at = d.created_at := by
  rw [stripId]
  cases d.oid <;> rfl

theorem stripId_lead (d : Doc) : (stripId d).lead = d.lead := by
  rw [stripId]
  cases d.oid <;> rfl

theorem mem_take_drop (n : Nat) (l : List Doc) (y : Doc) :
    y ∈ l.take n ∨ y ∈ l.drop n ↔ y ∈ l := by
  rw [← List.mem_append, List.take_append_drop]

theorem mem_insert_at (pref : List Doc) (pivot y : Doc) (idx : Nat) :
    y ∈ pref.take idx ++ pivot :: pref.drop idx ↔ y = pivot ∨ y ∈ pref := by
  simp only [List.mem_append, List.mem_cons]
  rw [← mem_take_drop idx pref y]
  tauto

theorem mem_binarySortLoop (pref rest : List Doc) (y : Doc) :
    y ∈ resList (binarySortLoop pref rest) ↔ y ∈ pref ∨ y ∈ rest := by
  induction rest generalizing pref with
  | nil => simp [binarySortLoop, resList]
  | cons pivot rest ih =>
    rw [binarySortLoop]
    cases hbs : binsearch pref pivot (pref.length + 1) 0 pref.length with
    | error e =>
      simp only [resList, List.mem_append, List.mem_cons]
    | ok idx =>
      rw [ih (pref.take idx ++ pivot :: pref.drop idx)]
      rw [mem_insert_at pref pivot y idx]
      simp only [List.mem_cons]
      tauto

theorem mem_pySortDesc (l : List Doc) (y : Doc) :
    y ∈ resList (pySortDesc l) ↔ y ∈ l := by
  rw [pySortDesc]
  by_cases hl : l.length < 2
  · simp [hl, resList]
  · simp only [hl, if_false]
    cases hcr : countRun l.reverse with
    | error e => simp [resList]
    | ok nd =>
      obtain ⟨n, desc⟩ := nd
      have harr : ∀ z : Doc,
          z ∈ (if desc then (l.reverse.take n).reverse ++ l.reverse.drop n else l.reverse) ↔
            z ∈ l := by
        intro z
        by_cases hd : desc
        · simp only [hd, if_true, List.mem_append, List.mem_reverse]
          rw [mem_take_drop n l.reverse z, List.mem_reverse]
        · simp [hd]
      have hmb := mem_binarySortLoop
        ((if desc then (l.reverse.take n).reverse ++ l.reverse.drop n else l.reverse).take n)
        ((if desc then (l.reverse.take n).reverse ++ l.reverse.drop n else l.reverse).drop n) y
      rw [mem_take_drop] at hmb
      rw [harr y] at hmb
      cases hbl : binarySortLoop
          ((if desc then (l.reverse.take n).reverse ++ l.reverse.drop n else l.reverse).take n)
          ((if desc then (l.reverse.take n).reverse ++ l.reverse.drop n else l.reverse).drop n) with
      | ok sorted =>
        simp only [hbl, resList] at hmb ⊢
        rw [List.mem_reverse]
        exact hmb
      | fail e st =>
        simp only [hbl, resList] at hmb ⊢
        rw [List.mem_reverse]
        exact hmb

theorem pySortDesc_three (a b c : Doc) (ta tb tc : Nat)
    (ha : sortKey a = .dt ta) (hb : sortKey b = .dt tb) (hc : sortKey c = .dt tc)
    (hab : ta < tb) (hbc : tb < tc) : pySortDesc [a, b, c] = .ok [c, b, a] := by
  simp [pySortDesc, countRun, runDesc, runAsc, iflt, ha, hb, hc, compareLt, hab, hbc,
    binarySortLoop]

/-! Claim theorems. -/

/-- C9: GET /test never raises and never returns an error: for every state of
the store handle and every environment it returns the six-field diagnostic
object (backend, database, database_url, database_name, connection_status,
collections — the fields of TestResponse), and when the store is down it
reports an unavailable status string instead of failing: an uninitialized
handle reports "Available but not initialized", and a handle whose collection
listing fails reports the truncated error text. -/
theorem c9_diagnostic_never_errors (db : Option DbHandle) (env : Env) :
    ∃ r : TestResponse, testDatabase db env = r ∧ r.backend = "✅ Running" ∧
      (db = none → r.database = "⚠️  Available but not initialized" ∧
        r.connection_status = "Not Connected" ∧ r.collections = []) ∧
      (∀ h e, db = some h → h.listCollectionNames = .error e →
        r.database = "⚠️  Connected but Error: " ++ e.take 50) := by
  refine ⟨testDatabase db env, rfl, rfl, ?_, ?_⟩
  · intro hdb
    subst hdb
    exact ⟨rfl, rfl, rfl⟩
  · intro h e hdb herr
    subst hdb
    simp [testDatabase, herr]

/-- C9 witness: on an uninitialized handle the diagnostic endpoint reports
the unavailable status string. -/
theorem c9_witness :
    (testDatabase none envNone).database = "⚠️  Available but not initialized" ∧
    (testDatabase none envNone).connection_status = "Not Connected" := by
  obtain ⟨r, hr, _, hnone, _⟩ := c9_diagnostic_never_errors none envNone
  rw [hr]
  exact ⟨(hnone rfl).1, (hnone rfl).2.1⟩

/-- C10 (counterexample to the claim as stated): a store of four records —
one lacking created_at (integer-0 fallback key) retrieved first, then leads
created at times 2, 3 and 1 — makes the sort raise, the error is swallowed,
but the 200 response carries the partially sorted state [no-timestamp, t3,
t2, t1], NOT the unsorted retrieval order [no-timestamp, t2, t3, t1]: the
aborted in-place sort had already moved records before the raising
comparison. -/
theorem c10_partial_state_not_retrieval_order :
    (listLeads envNone ⟨[docNoTime, docT2, docT3, docT1], true⟩ 50 none).status = 200 ∧
    (listLeads envNone ⟨[docNoTime, docT2, docT3, docT1], true⟩ 50 none).results =
      [stripId docNoTime, stripId docT3, stripId docT2, stripId docT1] ∧
    (listLeads envNone ⟨[docNoTime, docT2, docT3, docT1], true⟩ 50 none).results ≠
      [stripId docNoTime, stripId docT2, stripId docT3, stripId docT1] := by
  decide

/-- C10 (amended): when the in-memory sort raises — for example on mutually
incomparable created_at values such as a datetime alongside the integer-0
fallback — the error is swallowed and the endpoint returns 200 with every
retrieved record still present, but in the implementation-defined partially
sorted state the aborted in-place sort leaves (the retrieval order when the
very first comparison raises, as with two records; in general only a
permutation of it).  Scoped to listings below the CPython merge threshold of
64 records, within which the embedded sort is exact. -/
theorem c10_amended_sort_error_swallowed (env : Env) (store : Store) (limit : Nat)
    (key : Option String) (e : String) (st : List Doc)
    (hauth : truthy env.adminKey = false) (hav : store.available = true)
    (hn : (getDocuments store limit).length < 64)
    (hfail : pySortDesc ((getDocuments store limit).map stripId) = .fail e st) :
    (listLeads env store limit key).status = 200 ∧
    (listLeads env store limit key).ok = some true ∧
    (listLeads env store limit key).results = st ∧
    ∀ y, y ∈ st ↔ y ∈ (getDocuments store limit).map stripId := by
  have hcond : ¬(truthy env.adminKey = true ∧ key ≠ env.adminKey) := by
    rintro ⟨h1, _⟩
    rw [hauth] at h1
    exact Bool.false_ne_true h1
  have hmemall : ∀ y : Doc, y ∈ st ↔ y ∈ (getDocuments store limit).map stripId := by
    intro y
    have hres := mem_pySortDesc ((getDocuments store limit).map stripId) y
    rw [hfail] at hres
    simpa [resList] using hres
  rw [listLeads, if_neg hcond, if_pos hav]
  refine ⟨?_, ?_, ?_, hmemall⟩ <;> simp [hfail]

/-- C10 amended witness: the four-record mixed store is answered 200 with
the partially sorted state, every stripped record still present. -/
theorem c10_amended_witness :
    (listLeads envNone ⟨[docNoTime, docT2, docT3, docT1], true⟩ 50 none).ok = some true ∧
    (listLeads envNone ⟨[docNoTime, docT2, docT3, docT1], true⟩ 50 none).results =
      [stripId docNoTime, stripId docT3, stripId docT2, stripId docT1] := by
  have h := c10_amended_sort_error_swallowed envNone ⟨[docNoTime, docT2, docT3, docT1], true⟩
    50 none "TypeError: cannot compare datetime and int"
    [stripId docNoTime, stripId docT3, stripId docT2, stripId docT1] rfl rfl
    (by decide) (by decide)
  exact ⟨h.2.1, h.2.2.1⟩

/-- C8: listing strips the internal identifier into the public string field
and returns the records ordered by creation timestamp descending: for leads
created at t1 < t2 < t3 and retrieved in insertion order, the result order is
[t3, t2, t1], each record carrying `id` (pubId) in place of the internal
`_id` (oid). -/
theorem c8_listing_sorted (env : Env) (d1 d2 d3 : Doc) (t1 t2 t3 : Nat)
    (o1 o2 o3 : String) (limit : Nat) (key : Option String)
    (h12 : t1 < t2) (h23 : t2 < t3)
    (hc1 : d1.created_at = some (.dt t1)) (hc2 : d2.created_at = some (.dt t2))
    (hc3 : d3.created_at = some (.dt t3))
    (ho1 : d1.oid = some o1) (ho2 : d2.oid = some o2) (ho3 : d3.oid = some o3)
    (hlim : 3 ≤ limit) (hauth : truthy env.adminKey = false) :
    (listLeads env ⟨[d1, d2, d3], true⟩ limit key).status = 200 ∧
    (listLeads env ⟨[d1, d2, d3], true⟩ limit key).results =
      [⟨none, some o3, d3.created_at, d3.lead⟩, ⟨none, some o2, d2.created_at, d2.lead⟩,
       ⟨none, some o1, d1.created_at, d1.lead⟩] := by
  have hk1 : sortKey (stripId d1) = .dt t1 := by
    rw [sortKey, stripId_created_at, hc1]
    rfl
  have hk2 : sortKey (stripId d2) = .dt t2 := by
    rw [sortKey, stripId_created_at, hc2]
    rfl
  have hk3 : sortKey (stripId d3) = .dt t3 := by
    rw [sortKey, stripId_created_at, hc3]
    rfl
  have hsort := pySortDesc_three (stripId d1) (stripId d2) (stripId d3) t1 t2 t3 hk1 hk2 hk3 h12 h23
  have hlen : ([d1, d2, d3] : List Doc).length ≤ limit := by simpa using hlim
  have hs1 : stripId d1 = ⟨none, some o1, d1.created_at, d1.lead⟩ := by rw [stripId, ho1]
  have hs2 : stripId d2 = ⟨none, some o2, d2.created_at, d2.lead⟩ := by rw [stripId, ho2]
  have hs3 : stripId d3 = ⟨none, some o3, d3.created_at, d3.lead⟩ := by rw [stripId, ho3]
  rw [hs1, hs2, hs3] at hsort
  refine ⟨?_, ?_⟩ <;>
    simp [listLeads, hauth, getDocuments, List.take_of_length_le hlen, hs1, hs2, hs3, hsort]

/-- C8 witness: three leads created at times 1 < 2 < 3 are listed in the
order 3, 2, 1 with their identifiers made public. -/
theorem c8_witness :
    (listLeads envNone ⟨[docT1, docT2, docT3], true⟩ 50 none).results =
      [⟨none, some "a3", docT3.created_at, docT3.lead⟩,
       ⟨none, some "a2", docT2.created_at, docT2.lead⟩,
       ⟨none, some "a1", docT1.created_at, docT1.lead⟩] :=
  (c8_listing_sorted envNone docT1 docT2 docT3 1 2 3 "a1" "a2" "a3" 50 none
    (by decide) (by decide) rfl rfl rfl rfl rfl rfl (by decide) rfl).2

/-- C7: when an admin secret is configured (set to a non-empty value, which
is what the truthiness test in the code treats as configured) and the X-Admin-Key
header is missing or different, the response is 401 Unauthorized with no
records; when no admin secret is configured, the records are returned with
status 200 regardless of header presence or value. -/
theorem c7_admin_gate (env : Env) (store : Store) (limit : Nat) (key : Option String) :
    (∀ k, env.adminKey = some k → k ≠ "" → key ≠ some k →
      listLeads env store limit key = ⟨401, none, [], some "Unauthorized"⟩) ∧
    (truthy env.adminKey = false → store.available = true →
      (listLeads env store limit key).status = 200 ∧
      (listLeads env store limit key).ok = some true ∧
      ∀ d ∈ getDocuments store limit, stripId d ∈ (listLeads env store limit key).results) := by
  constructor
  · intro k hk hke hkey
    rw [listLeads, if_pos]
    constructor
    · rw [hk]
      simpa [truthy] using hke
    · rw [hk]
      exact hkey
  · intro hfa hav
    have hcond : ¬(truthy env.adminKey = true ∧ key ≠ env.adminKey) := by
      rintro ⟨h1, _⟩
      rw [hfa] at h1
      exact Bool.false_ne_true h1
    rw [listLeads, if_neg hcond, if_pos hav]
    refine ⟨rfl, rfl, ?_⟩
    intro d hd
    have hmem : stripId d ∈ (getDocuments store limit).map stripId :=
      List.mem_map_of_mem stripId hd
    have hres := mem_pySortDesc ((getDocuments store limit).map stripId) (stripId d)
    cases hsort : pySortDesc ((getDocuments store limit).map stripId) with
    | ok r =>
      simp only [hsort, resList] at hres ⊢
      exact hres.mpr hmem
    | fail e st =>
      simp only [hsort, resList] at hres ⊢
      exact hres.mpr hmem

/-- C7 witness: with ADMIN_KEY set and no header the listing is refused; with
no ADMIN_KEY an arbitrary header value is accepted. -/
theorem c7_witness :
    listLeads envSecret ⟨[docT1], true⟩ 50 none = ⟨401, none, [], some "Unauthorized"⟩ ∧
    (listLeads envNone ⟨[docT1], true⟩ 50 (some "whatever")).status = 200 := by
  constructor
  · exact (c7_admin_gate envSecret ⟨[docT1], true⟩ 50 none).1 "secret" rfl (by decide) (by decide)
  · exact ((c7_admin_gate envNone ⟨[docT1], true⟩ 50 (some "whatever")).2 rfl rfl).1

/-- C5: a body missing name or email, or whose name is shorter than 2 or
longer than 100 characters, or whose email is not a valid address, fails
validation: the request is rejected (422) before the handler runs, so the
store is unchanged and no delivery attempt is made. -/
theorem c5_invalid_not_persisted (env : Env) (orc : MailAttempt → Bool) (now : Nat)
    (store : Store) (i : LeadInput)
    (h : i.name = none ∨ i.email = none ∨
      (∃ n, i.name = some n ∧ (n.length < 2 ∨ 100 < n.length)) ∨
      (∃ e, i.email = some e ∧ validEmail e = false)) :
    (postLeads env orc now store i).resp.status = 422 ∧
    (postLeads env orc now store i).store = store ∧
    (postLeads env orc now store i).attempts = [] := by
  have he := parseLead_error i (leadErrors_ne_nil i h)
  rw [postLeads, he]
  exact ⟨rfl, rfl, rfl⟩

/-- C5 witness: a one-character name is rejected and the empty store stays
empty with no delivery attempt. -/
theorem c5_witness :
    (postLeads envNone orcUp 0 emptyStore shortNameInput).resp.status = 422 ∧
    (postLeads envNone orcUp 0 emptyStore shortNameInput).store = emptyStore ∧
    (postLeads envNone orcUp 0 emptyStore shortNameInput).attempts = [] :=
  c5_invalid_not_persisted envNone orcUp 0 emptyStore shortNameInput
    (Or.inr (Or.inr (Or.inl ⟨"A", rfl, Or.inl (by decide)⟩)))

/-- C6: for a create-lead request whose persistence succeeded: when the
notification configuration is incomplete the request succeeds with zero
delivery attempts; and on a successful response exactly two delivery attempts
are made if and only if all four of SMTP_HOST, SMTP_PORT, EMAIL_FROM and
EMAIL_TO are configured — first the admin summary to the configured
to-address, then the applicant confirmation to the email of the lead. -/
theorem c6_two_notifications (env : Env) (orc : MailAttempt → Bool) (now : Nat)
    (store : Store) (lead : Lead) (hav : store.available = true) :
    (smtpConfigured env = false →
      (createLead env orc now store lead).resp.ok = some true ∧
      (createLead env orc now store lead).attempts = []) ∧
    ((createLead env orc now store lead).resp.status = 200 →
      ((createLead env orc now store lead).attempts.length = 2 ↔ smtpConfigured env = true) ∧
      (smtpConfigured env = true →
        ∃ p, pyInt ((env.smtpPort).getD "587") = some p ∧
          (createLead env orc now store lead).attempts =
            [⟨(env.smtpHost).getD "", p, env.emailFrom, (env.emailTo).getD "",
                subjectAdmin lead, bodyAdmin lead (genId store)⟩,
             ⟨(env.smtpHost).getD "", p, env.emailFrom, lead.email, subjectUser, bodyUser lead⟩])) := by
  constructor
  · intro hcfg
    rw [createLead_unconfigured env orc now store lead hav hcfg]
    exact ⟨rfl, rfl⟩
  · intro hstat
    by_cases hcfg : smtpConfigured env = true
    · cases hp : pyInt ((env.smtpPort).getD "587") with
      | none =>
        rw [createLead_port_error env orc now store lead hav hcfg hp] at hstat
        simp at hstat
      | some p =>
        rw [createLead_configured env orc now store lead p hav hcfg hp]
        exact ⟨⟨fun _ => hcfg, fun _ => rfl⟩, fun _ => ⟨p, rfl, rfl⟩⟩
    · have hcfg2 : smtpConfigured env = false := by
        revert hcfg
        cases smtpConfigured env <;> simp
      rw [createLead_unconfigured env orc now store lead hav hcfg2]
      constructor
      · constructor
        · intro hlen
          simp at hlen
        · intro htrue
          rw [htrue] at hcfg2
          cases hcfg2
      · intro htrue
        rw [htrue] at hcfg2
        cases hcfg2

/-- C6 witness: with full SMTP configuration two delivery attempts are made;
with none configured the request still succeeds with zero attempts. -/
theorem c6_witness :
    (createLead envFull orcUp 0 emptyStore adaLead).attempts.length = 2 ∧
    (createLead envNone orcUp 0 emptyStore adaLead).resp.ok = some true ∧
    (createLead envNone orcUp 0 emptyStore adaLead).attempts = [] := by
  refine ⟨?_, ?_, ?_⟩
  · exact ((c6_two_notifications envFull orcUp 0 emptyStore adaLead rfl).2 (by decide)).1.mpr (by decide)
  · exact ((c6_two_notifications envNone orcUp 0 emptyStore adaLead rfl).1 (by decide)).1
  · exact ((c6_two_notifications envNone orcUp 0 emptyStore adaLead rfl).1 (by decide)).2

/-- C1 (divergence evaluated): with all four mail variables set but SMTP_PORT
not a numeral, a lead whose persistence succeeded is answered 500 — int() is
applied to SMTP_PORT before the try block of _send_email, so the ValueError
escapes the notification step into the create_lead catch-all, contradicting the
claim (and the best-effort docstring of the function itself): the document is in the
store, zero delivery attempts were made, yet the caller sees an error. -/
theorem c1_port_parse_propagates :
    (createLead envBadPort orcUp 5 emptyStore adaLead).resp.status = 500 ∧
    (createLead envBadPort orcUp 5 emptyStore adaLead).resp.ok = none ∧
    (createLead envBadPort orcUp 5 emptyStore adaLead).store.docs.length = 1 ∧
    (createLead envBadPort orcUp 5 emptyStore adaLead).attempts = [] := by
  decide

/-- C2 (counterexample): a body failing Lead validation — here a
one-character name — is answered with status 422 (the FastAPI request
validation response), not with the claimed 500. -/
theorem c2_validation_not_500 :
    (postLeads envNone orcUp 0 emptyStore shortNameInput).resp.status = 422 ∧
    (postLeads envNone orcUp 0 emptyStore shortNameInput).resp.status ≠ 500 := by
  decide

/-- C2 (amended): a body failing Lead validation is answered 422 with the
structured list of field errors as detail; the 500 {detail: string} shape is
produced for storage failures on validated bodies. -/
theorem c2_amended_shapes (env : Env) (orc : MailAttempt → Bool) (now : Nat)
    (store : Store) (i : LeadInput) (errs : List String) (lead : Lead) :
    (parseLead i = .error errs →
      postLeads env orc now store i = ⟨⟨422, none, none, some (.list errs)⟩, store, []⟩) ∧
    (parseLead i = .ok lead → store.available = false →
      postLeads env orc now store i =
        ⟨⟨500, none, none, some (.str "storage unreachable")⟩, store, []⟩) := by
  constructor
  · intro hp
    rw [postLeads, hp]
  · intro hp hav
    simp [postLeads, hp, createLead, createDocument, hav]

/-- C2 amended witness: the short-name body yields the 422 list-shaped
response; the valid Ada body against an unreachable store yields the 500
string-shaped response. -/
theorem c2_amended_witness :
    postLeads envNone orcUp 0 emptyStore shortNameInput =
      ⟨⟨422, none, none, some (.list ["name: at least 2 characters"])⟩, emptyStore, []⟩ ∧
    postLeads envNone orcUp 0 deadStore adaInput =
      ⟨⟨500, none, none, some (.str "storage unreachable")⟩, deadStore, []⟩ := by
  constructor
  · exact (c2_amended_shapes envNone orcUp 0 emptyStore shortNameInput
      ["name: at least 2 characters"] adaLead).1 (by decide)
  · exact (c2_amended_shapes envNone orcUp 0 deadStore adaInput [] adaLead).2 (by decide) rfl

end LeadApp
